import Mathlib

/-! Shallow embedding of the device negotiation and TX/RX scheduler loop of
`examples/arduino-rx-web/arduino-rx-web.cpp` (ggwave).

The SDL audio API and the GGWave modem engine are external collaborators:
their observable behaviour during one call is supplied as an oracle record,
and the loop/negotiation functions are translated statement by statement
from the C++ source.  Device queues are modelled by their byte counts
(`SDL_GetQueuedAudioSize` is the only way the code inspects them), paused
state by a `Bool` per device, and timestamps by natural-number
milliseconds.  SDL calls on an invalid (zero) device id are no-ops, as in
SDL itself.
-/

namespace ArduinoRxWeb

/-- GGWave engine sample formats (`GGWAVE_SAMPLE_FORMAT_*`). -/
inductive SampleFormat where
  | undefined
  | u8
  | i8
  | u16
  | i16
  | f32
  deriving DecidableEq, Repr

/-- SDL audio format constants (native little-endian byte order, as on the
x86/wasm targets of this example): `AUDIO_U8`, `AUDIO_S8`, `AUDIO_U16SYS`,
`AUDIO_S16SYS`, `AUDIO_S32SYS`, `AUDIO_F32SYS`. -/
def AUDIO_U8     : Nat := 0x0008
def AUDIO_S8     : Nat := 0x8008
def AUDIO_U16SYS : Nat := 0x0010
def AUDIO_S16SYS : Nat := 0x8010
def AUDIO_S32SYS : Nat := 0x8020
def AUDIO_F32SYS : Nat := 0x8120

/-- The two `switch (format)` statements of `GGWave_init` (lines 206-223):
map an obtained SDL hardware format to the engine sample format, starting
from the `GGWAVE_SAMPLE_FORMAT_UNDEFINED` initialisation. -/
def sdlFormatToGGWave (f : Nat) : SampleFormat :=
  if f = AUDIO_U8 then .u8
  else if f = AUDIO_S8 then .i8
  else if f = AUDIO_U16SYS then .u16
  else if f = AUDIO_S16SYS then .i16
  else if f = AUDIO_S32SYS then .f32
  else if f = AUDIO_F32SYS then .f32
  else .undefined

/-- Observable behaviour of the GGWave engine (`g_ggWave`) during one
scheduler tick: the values its queried methods return.  `decodeOk` is the
result `decode` would report on this tick's captured frame, `rxCount` the
result of `rxTakeData`, `encodeBytes` the byte count returned by
`encode()`. -/
structure Engine where
  txHasData : Bool
  samplesPerFrame : Nat
  sampleSizeInp : Nat
  sampleSizeOut : Nat
  decodeOk : Bool
  rxCount : Nat
  encodeBytes : Nat
  deriving DecidableEq, Repr

/-- Mutable state read and written by `GGWave_mainLoop`: the two SDL device
ids, each device's paused flag and queued byte count, the function-static
`tLastNoData` timestamp (milliseconds) and the size the function-static
`dataInp` vector was given when first allocated (`none` before the first
decode attempt). -/
structure LoopState where
  devIdInp : Nat
  devIdOut : Nat
  pausedInp : Bool
  pausedOut : Bool
  queueInp : Nat
  queueOut : Nat
  tLastNoData : Nat
  dataInpSize : Option Nat
  deriving DecidableEq, Repr

/-- Calls the tick issued to its collaborators, recorded so that theorems
can speak about "exactly one waveform enqueued", "decode invoked", and the
warnings surfaced on stderr. -/
structure TickEffects where
  decodeCalls : Nat
  decodeBytes : Nat
  dequeuedBytes : Nat
  encodeCalls : Nat
  enqueueCalls : Nat
  enqueuedBytes : Nat
  warnDecodeFail : Bool
  warnSlow : Bool
  deriving DecidableEq, Repr

def TickEffects.none : TickEffects :=
  ⟨0, 0, 0, 0, 0, 0, false, false⟩

/-- Model of `SDL_PauseAudioDevice (dev, pauseOn)`: no-op on an invalid (zero)
device id, otherwise sets the paused flag. -/
def sdlPause (devId : Nat) (pauseOn : Bool) (paused : Bool) : Bool :=
  if devId = 0 then paused else pauseOn

/-- Model of `SDL_GetQueuedAudioSize (dev)`: 0 on an invalid device id. -/
def sdlQueuedSize (devId : Nat) (q : Nat) : Nat :=
  if devId = 0 then 0 else q

/-- Model of `SDL_ClearQueuedAudio (dev)`: no-op on an invalid device id. -/
def sdlClearQueued (devId : Nat) (q : Nat) : Nat :=
  if devId = 0 then q else 0

/-- Model of `SDL_DequeueAudio (dev, buf, n)` on a capture queue holding `q` bytes:
removes up to `n` bytes (the code only calls it with `n ≤ q`). -/
def sdlDequeue (devId : Nat) (q n : Nat) : Nat :=
  if devId = 0 then q else q - min n q

/-- Model of `SDL_QueueAudio (dev, buf, n)`: appends `n` bytes, failing (no-op) on
an invalid device id. -/
def sdlQueue (devId : Nat) (q n : Nat) : Nat :=
  if devId = 0 then q else q + n

/-- Model of `GGWave_mainLoop` (lines 249-300), one tick.  `tNow` is the value of
`std::chrono::high_resolution_clock::now()` in milliseconds; `e` supplies
what the engine's methods return this tick.  Returns the C++ return value,
the state after the tick and the record of collaborator calls. -/
def GGWave_mainLoop (e : Engine) (tNow : Nat) (s : LoopState) :
    Bool × LoopState × TickEffects :=
  if s.devIdInp = 0 ∧ s.devIdOut = 0 then
    (false, s, TickEffects.none)
  else if e.txHasData = false then
    -- SDL_PauseAudioDevice(g_devIdOut, SDL_FALSE): resume playback
    let s1 := { s with pausedOut := sdlPause s.devIdOut false s.pausedOut }
    if sdlQueuedSize s1.devIdOut s1.queueOut <
        e.samplesPerFrame * e.sampleSizeOut then
      -- SDL_PauseAudioDevice(g_devIdInp, SDL_FALSE): resume capture
      let s2 := { s1 with pausedInp := sdlPause s1.devIdInp false s1.pausedInp }
      let nHave := sdlQueuedSize s2.devIdInp s2.queueInp
      let nNeed := e.samplesPerFrame * e.sampleSizeInp
      if 500 < tNow - s2.tLastNoData ∧ nNeed ≤ nHave then
        -- static std::vector<uint8_t> dataInp(nNeed): sized on first pass
        let sz := s2.dataInpSize.getD nNeed
        let s3 := { s2 with
          dataInpSize := some sz
          queueInp := sdlDequeue s2.devIdInp s2.queueInp nNeed }
        let fx : TickEffects :=
          { decodeCalls := 1
            decodeBytes := sz
            dequeuedBytes := sdlQueuedSize s2.devIdInp s2.queueInp - s3.queueInp
            encodeCalls := 0
            enqueueCalls := 0
            enqueuedBytes := 0
            warnDecodeFail := e.decodeOk = false
            warnSlow := 32 * nNeed < nHave }
        if 32 * nNeed < nHave then
          (true, { s3 with queueInp := sdlClearQueued s3.devIdInp s3.queueInp },
            fx)
        else
          (true, s3, fx)
      else
        (true, { s2 with queueInp := sdlClearQueued s2.devIdInp s2.queueInp },
          TickEffects.none)
    else
      -- tLastNoData = tNow
      (true, { s1 with tLastNoData := tNow }, TickEffects.none)
  else
    -- SDL_PauseAudioDevice(out, SDL_TRUE); SDL_PauseAudioDevice(inp, SDL_TRUE)
    let s1 := { s with
      pausedOut := sdlPause s.devIdOut true s.pausedOut
      pausedInp := sdlPause s.devIdInp true s.pausedInp }
    -- const auto nBytes = g_ggWave->encode(); SDL_QueueAudio(out, ..., nBytes)
    let s2 := { s1 with queueOut := sdlQueue s1.devIdOut s1.queueOut e.encodeBytes }
    (true, s2,
      { decodeCalls := 0
        decodeBytes := 0
        dequeuedBytes := 0
        encodeCalls := 1
        enqueueCalls := 1
        enqueuedBytes := e.encodeBytes
        warnDecodeFail := false
        warnSlow := false })

/-- Return value of one tick. -/
def tickRet (e : Engine) (tNow : Nat) (s : LoopState) : Bool :=
  (GGWave_mainLoop e tNow s).1

/-- State after one tick. -/
def tickState (e : Engine) (tNow : Nat) (s : LoopState) : LoopState :=
  (GGWave_mainLoop e tNow s).2.1

/-- Collaborator calls of one tick. -/
def tickFx (e : Engine) (tNow : Nat) (s : LoopState) : TickEffects :=
  (GGWave_mainLoop e tNow s).2.2

/-- An SDL audio spec as recorded by the code: sample rate, format code,
channel count, samples per hardware buffer (the float `callback` field is
always NULL here and carries no information). -/
structure SDLSpec where
  freq : Int
  format : Nat
  channels : Nat
  samples : Nat
  deriving DecidableEq, Repr

/-- Result of `SDL_zero(spec)`. -/
def SDLSpec.zero : SDLSpec := ⟨0, 0, 0, 0⟩

/-- Parameters the code passes to the `GGWave` constructor (lines
231-241); the float `kDefaultSoundMarkerThreshold` constant is fixed and
carries no program state.  `GGWave::kDefaultSampleRate = 48000`. -/
structure GGWaveParams where
  payloadLength : Int
  sampleRateInp : Int
  sampleRateOut : Int
  sampleRate : Nat
  samplesPerFrame : Nat
  sampleFormatInp : SampleFormat
  sampleFormatOut : SampleFormat
  useDSS : Bool
  deriving DecidableEq, Repr

/-- Mutable globals read and written by `GGWave_init`: the two device ids,
the two obtained specs and the engine instance (`none` models a null
`g_ggWave`). -/
structure InitState where
  devIdInp : Nat
  devIdOut : Nat
  obtainedSpecInp : SDLSpec
  obtainedSpecOut : SDLSpec
  gg : Option GGWaveParams
  deriving DecidableEq, Repr

/-- What the SDL layer does in response to this call's requests:
`sdlInitOk` is whether `SDL_Init(SDL_INIT_AUDIO)` succeeds, `outOpenId`
the id `SDL_OpenAudioDevice` returns for the playback request (0 = open
fails) with `outObtained` the spec it reports on success, and likewise for
the capture request.  The requested specs (playback: signed 16-bit mono,
16*1024 samples, `48000 + sampleRateOffset` Hz; capture: float32, 1024
samples) are absorbed by this oracle. -/
structure Hw where
  sdlInitOk : Bool
  outOpenId : Nat
  outObtained : SDLSpec
  inpOpenId : Nat
  inpObtained : SDLSpec
  deriving DecidableEq, Repr

/-- Device-API calls issued by one `GGWave_init` call. -/
structure InitEffects where
  sdlInitCalls : Nat
  outOpenCalls : Nat
  inpOpenCalls : Nat
  closeAudioCalls : Nat
  deriving DecidableEq, Repr

def InitEffects.none : InitEffects := ⟨0, 0, 0, 0⟩

/-- Second half of `GGWave_init` (lines 172-244): capture-device section,
format adaptation and session rebuild.  `reinit` is the flag value when
control reaches line 172. -/
def GGWave_initCaptureAndRebuild (hw : Hw) (payloadLength : Int)
    (useDSS : Bool) (reinit : Bool) (s : InitState) (fx : InitEffects) :
    Bool × InitState × InitEffects :=
  let step :=
    if s.devIdInp = 0 then
      let sA := { s with obtainedSpecInp := SDLSpec.zero,
                         devIdInp := hw.inpOpenId }
      let fxA := { fx with inpOpenCalls := fx.inpOpenCalls + 1 }
      if sA.devIdInp = 0 then
        (sA, fxA, reinit)
      else
        ({ sA with obtainedSpecInp := hw.inpObtained }, fxA, true)
    else
      (s, fx, reinit)
  let s1 := step.1
  let fx1 := step.2.1
  let reinit1 := step.2.2
  let sampleFormatInp := sdlFormatToGGWave s1.obtainedSpecInp.format
  let sampleFormatOut := sdlFormatToGGWave s1.obtainedSpecOut.format
  let params : GGWaveParams :=
    { payloadLength := payloadLength
      sampleRateInp := s1.obtainedSpecInp.freq
      sampleRateOut := s1.obtainedSpecOut.freq
      sampleRate := 48000
      samplesPerFrame := 512
      sampleFormatInp := sampleFormatInp
      sampleFormatOut := sampleFormatOut
      useDSS := useDSS }
  if reinit1 then
    (true, { s1 with gg := some params }, fx1)
  else
    (true, s1, fx1)

/-- Model of `GGWave_init` (lines 87-245).  `sampleRateOffset` only shapes the
requested specs, which the `Hw` oracle absorbs; it is kept to mirror the
source signature.  Returns the C++ boolean result, the globals after the
call and the device-API calls made. -/
def GGWave_init (hw : Hw) (payloadLength sampleRateOffset : Int)
    (useDSS : Bool) (s : InitState) : Bool × InitState × InitEffects :=
  if s.devIdInp ≠ 0 ∧ s.devIdOut ≠ 0 then
    (false, s, InitEffects.none)
  else
    let bothClosed : Bool := s.devIdInp = 0 ∧ s.devIdOut = 0
    let fx0 : InitEffects :=
      { InitEffects.none with sdlInitCalls := if bothClosed then 1 else 0 }
    if bothClosed ∧ hw.sdlInitOk = false then
      -- `return (1);` in a bool function: reports success despite the failure
      (true, s, fx0)
    else if s.devIdOut = 0 then
      -- playback section (lines 126-170)
      let s1 := { s with obtainedSpecOut := SDLSpec.zero,
                         devIdOut := hw.outOpenId }
      let fx1 := { fx0 with outOpenCalls := 1 }
      if s1.devIdOut = 0 then
        -- open failed: log only, fall through to the capture section
        GGWave_initCaptureAndRebuild hw payloadLength useDSS false s1 fx1
      else
        let s2 := { s1 with obtainedSpecOut := hw.outObtained }
        if s2.obtainedSpecOut.format ≠ AUDIO_S16SYS ∨
           s2.obtainedSpecOut.channels ≠ 1 ∨
           s2.obtainedSpecOut.samples ≠ 16 * 1024 then
          -- g_devIdOut = 0; SDL_CloseAudio(); return false
          (false, { s2 with devIdOut := 0 },
            { fx1 with closeAudioCalls := 1 })
        else
          GGWave_initCaptureAndRebuild hw payloadLength useDSS true s2 fx1
    else
      GGWave_initCaptureAndRebuild hw payloadLength useDSS false s fx0

/-! Branch equations for `GGWave_mainLoop`, one per control path. -/

/-- Transmitting branch (lines 291-297): with both devices open and
outbound data pending, the tick pauses both devices, encodes once and
appends the returned byte count to the playback queue. -/
theorem mainLoop_tx_eq (e : Engine) (tNow : Nat) (s : LoopState)
    (hInp : s.devIdInp ≠ 0) (hOut : s.devIdOut ≠ 0)
    (hTx : e.txHasData = true) :
    GGWave_mainLoop e tNow s =
      (true,
        { s with pausedInp := true, pausedOut := true,
                 queueOut := s.queueOut + e.encodeBytes },
        ⟨0, 0, 0, 1, 1, e.encodeBytes, false, false⟩) := by
  unfold GGWave_mainLoop
  simp [hTx, hInp, hOut, sdlPause, sdlQueue]

/-- Drain-blocked listening branch (lines 288-290): no outbound data but
the playback queue still holds at least one output frame's bytes; the tick
resumes playback, refreshes `tLastNoData` and touches nothing else. -/
theorem mainLoop_drain_eq (e : Engine) (tNow : Nat) (s : LoopState)
    (hInp : s.devIdInp ≠ 0) (hOut : s.devIdOut ≠ 0)
    (hTx : e.txHasData = false)
    (hQ : e.samplesPerFrame * e.sampleSizeOut ≤ s.queueOut) :
    GGWave_mainLoop e tNow s =
      (true, { s with pausedOut := false, tLastNoData := tNow },
        TickEffects.none) := by
  unfold GGWave_mainLoop
  simp [hTx, hInp, hOut, sdlPause, sdlQueuedSize, Nat.not_lt.mpr hQ]

/-- Idle-clear listening branch (lines 285-287): capture logic reached but
the debounce window has not elapsed or too little capture data is queued;
the tick resumes both devices and clears the capture queue. -/
theorem mainLoop_idle_eq (e : Engine) (tNow : Nat) (s : LoopState)
    (hInp : s.devIdInp ≠ 0) (hOut : s.devIdOut ≠ 0)
    (hTx : e.txHasData = false)
    (hA : s.queueOut < e.samplesPerFrame * e.sampleSizeOut)
    (hIdle : ¬(500 < tNow - s.tLastNoData ∧
        e.samplesPerFrame * e.sampleSizeInp ≤ s.queueInp)) :
    GGWave_mainLoop e tNow s =
      (true, { s with pausedInp := false, pausedOut := false,
                      queueInp := 0 },
        TickEffects.none) := by
  unfold GGWave_mainLoop
  simp [hTx, hInp, hOut, sdlPause, sdlQueuedSize, sdlClearQueued, hA, hIdle]

/-- Decode branch without overflow (lines 264-280): one frame's worth of
bytes is dequeued and decoded, and the pre-dequeue queue depth does not
exceed 32 frames' bytes. -/
theorem mainLoop_decode_eq (e : Engine) (tNow : Nat) (s : LoopState)
    (hInp : s.devIdInp ≠ 0) (hOut : s.devIdOut ≠ 0)
    (hTx : e.txHasData = false)
    (hA : s.queueOut < e.samplesPerFrame * e.sampleSizeOut)
    (hDeb : 500 < tNow - s.tLastNoData)
    (hHave : e.samplesPerFrame * e.sampleSizeInp ≤ s.queueInp)
    (hNoOv : ¬(32 * (e.samplesPerFrame * e.sampleSizeInp) < s.queueInp)) :
    GGWave_mainLoop e tNow s =
      (true,
        { s with pausedInp := false, pausedOut := false,
                 queueInp := s.queueInp - e.samplesPerFrame * e.sampleSizeInp,
                 dataInpSize :=
                   some (s.dataInpSize.getD
                     (e.samplesPerFrame * e.sampleSizeInp)) },
        ⟨1, s.dataInpSize.getD (e.samplesPerFrame * e.sampleSizeInp),
          e.samplesPerFrame * e.sampleSizeInp, 0, 0, 0,
          decide (e.decodeOk = false), false⟩) := by
  have eQSo : ∀ q : Nat, sdlQueuedSize s.devIdOut q = q := fun q => if_neg hOut
  have eQSi : ∀ q : Nat, sdlQueuedSize s.devIdInp q = q := fun q => if_neg hInp
  have ePo : ∀ b c : Bool, sdlPause s.devIdOut b c = b := fun b c => if_neg hOut
  have ePi : ∀ b c : Bool, sdlPause s.devIdInp b c = b := fun b c => if_neg hInp
  have eDq : ∀ q n : Nat, sdlDequeue s.devIdInp q n = q - min n q :=
    fun q n => if_neg hInp
  unfold GGWave_mainLoop
  rw [if_neg (by simp [hInp]), hTx, if_pos rfl]
  dsimp only
  rw [eQSo, if_pos hA]
  rw [ePo, ePi, eQSi, if_pos ⟨hDeb, hHave⟩]
  rw [if_neg hNoOv, eDq, Nat.min_eq_left hHave, Nat.sub_sub_self hHave,
    decide_eq_false hNoOv]

/-- Decode branch with overflow (lines 281-284): as `mainLoop_decode_eq`
but the pre-dequeue depth exceeds 32 frames' bytes, so after the dequeue
the capture queue is cleared and the slow-processing warning emitted. -/
theorem mainLoop_decode_overflow_eq (e : Engine) (tNow : Nat)
    (s : LoopState)
    (hInp : s.devIdInp ≠ 0) (hOut : s.devIdOut ≠ 0)
    (hTx : e.txHasData = false)
    (hA : s.queueOut < e.samplesPerFrame * e.sampleSizeOut)
    (hDeb : 500 < tNow - s.tLastNoData)
    (hHave : e.samplesPerFrame * e.sampleSizeInp ≤ s.queueInp)
    (hOv : 32 * (e.samplesPerFrame * e.sampleSizeInp) < s.queueInp) :
    GGWave_mainLoop e tNow s =
      (true,
        { s with pausedInp := false, pausedOut := false, queueInp := 0,
                 dataInpSize :=
                   some (s.dataInpSize.getD
                     (e.samplesPerFrame * e.sampleSizeInp)) },
        ⟨1, s.dataInpSize.getD (e.samplesPerFrame * e.sampleSizeInp),
          e.samplesPerFrame * e.sampleSizeInp, 0, 0, 0,
          decide (e.decodeOk = false), true⟩) := by
  have eQSo : ∀ q : Nat, sdlQueuedSize s.devIdOut q = q := fun q => if_neg hOut
  have eQSi : ∀ q : Nat, sdlQueuedSize s.devIdInp q = q := fun q => if_neg hInp
  have ePo : ∀ b c : Bool, sdlPause s.devIdOut b c = b := fun b c => if_neg hOut
  have ePi : ∀ b c : Bool, sdlPause s.devIdInp b c = b := fun b c => if_neg hInp
  have eDq : ∀ q n : Nat, sdlDequeue s.devIdInp q n = q - min n q :=
    fun q n => if_neg hInp
  have eCl : ∀ q : Nat, sdlClearQueued s.devIdInp q = 0 := fun q => if_neg hInp
  unfold GGWave_mainLoop
  rw [if_neg (by simp [hInp]), hTx, if_pos rfl]
  dsimp only
  rw [eQSo, if_pos hA]
  rw [ePo, ePi, eQSi, if_pos ⟨hDeb, hHave⟩]
  rw [if_pos hOv, eDq, eCl, Nat.min_eq_left hHave, Nat.sub_sub_self hHave,
    decide_eq_true hOv]

/-! Theorems about the claims. -/

/-- C10: the scheduler tick takes the inactive early return (false)
exactly when both device handles are zero; whenever at least one handle is
open it runs the direction-decision logic and returns true (active). -/
theorem mainLoop_active_iff_some_device_open (e : Engine) (tNow : Nat)
    (s : LoopState) :
    tickRet e tNow s = (s.devIdInp != 0 || s.devIdOut != 0) := by
  unfold tickRet GGWave_mainLoop
  by_cases h : s.devIdInp = 0 ∧ s.devIdOut = 0
  · rw [if_pos h]
    simp [h.1, h.2]
  · rw [if_neg h]
    have hr : (s.devIdInp != 0 || s.devIdOut != 0) = true := by
      simp only [Bool.or_eq_true, bne_iff_ne, Ne]
      exact not_and_or.mp h
    rw [hr]
    dsimp only
    split
    · split
      · split
        · split <;> rfl
        · rfl
      · rfl
    · rfl

/-- C1 counterexample: a listening tick with both devices open and an
empty playback queue leaves both the playback and the capture device
unpaused at the end of the tick, so the two are simultaneously resumed. -/
theorem listening_tick_both_devices_unpaused_cx :
    (tickState ⟨false, 512, 4, 2, true, 0, 100⟩ 1000
      ⟨3, 2, true, true, 0, 0, 0, Option.none⟩).pausedOut = false ∧
    (tickState ⟨false, 512, 4, 2, true, 0, 100⟩ 1000
      ⟨3, 2, true, true, 0, 0, 0, Option.none⟩).pausedInp = false := by
  constructor <;> rfl

/-- C1 (amended): TX and RX are mutually exclusive in the sense that a
transmitting tick leaves both devices paused, and a listening tick resumes
the capture device only once the playback queue has drained below one
output frame's bytes; the playback device itself stays unpaused while
listening, so both devices may be simultaneously unpaused. -/
theorem half_duplex_by_drain (e : Engine) (tNow : Nat) (s : LoopState)
    (hInp : s.devIdInp ≠ 0) (hOut : s.devIdOut ≠ 0) :
    (e.txHasData = true →
      (tickState e tNow s).pausedOut = true ∧
      (tickState e tNow s).pausedInp = true) ∧
    (e.txHasData = false →
      e.samplesPerFrame * e.sampleSizeOut ≤ s.queueOut →
      (tickState e tNow s).pausedInp = s.pausedInp) := by
  constructor
  · intro hTx
    rw [tickState, mainLoop_tx_eq e tNow s hInp hOut hTx]
    exact ⟨rfl, rfl⟩
  · intro hTx hQ
    rw [tickState, mainLoop_drain_eq e tNow s hInp hOut hTx hQ]

/-- C1 witness. -/
theorem half_duplex_by_drain_witness :
    ((3 : Nat) ≠ 0 ∧ (2 : Nat) ≠ 0) ∧
    ((tickState ⟨true, 512, 4, 2, true, 0, 100⟩ 1000
        ⟨3, 2, false, false, 0, 0, 0, Option.none⟩).pausedOut = true ∧
      (tickState ⟨true, 512, 4, 2, true, 0, 100⟩ 1000
        ⟨3, 2, false, false, 0, 0, 0, Option.none⟩).pausedInp = true) :=
  ⟨⟨by decide, by decide⟩,
    (half_duplex_by_drain ⟨true, 512, 4, 2, true, 0, 100⟩ 1000
      ⟨3, 2, false, false, 0, 0, 0, Option.none⟩
      (by decide) (by decide)).1 rfl⟩

/-- C2 counterexample: a transmitting tick with both devices open leaves
the playback device paused (`SDL_PauseAudioDevice(g_devIdOut, SDL_TRUE)`),
not resumed as the claim states. -/
theorem tx_tick_playback_left_paused_cx :
    (tickState ⟨true, 512, 4, 2, true, 0, 4096⟩ 2000
      ⟨5, 4, false, false, 0, 0, 0, Option.none⟩).pausedOut = true := by
  rfl

/-- C2 (amended): for every tick with both devices open in which the
Session reports outbound data pending, the tick pauses (not resumes) the
playback device, pauses the capture device, asks the engine to produce
exactly one encoded waveform buffer, and enqueues exactly that one buffer
to the playback device's hardware queue. -/
theorem tx_tick_pauses_devices_enqueues_one (e : Engine) (tNow : Nat)
    (s : LoopState) (hInp : s.devIdInp ≠ 0) (hOut : s.devIdOut ≠ 0)
    (hTx : e.txHasData = true) :
    (tickState e tNow s).pausedOut = true ∧
    (tickState e tNow s).pausedInp = true ∧
    (tickFx e tNow s).encodeCalls = 1 ∧
    (tickFx e tNow s).enqueueCalls = 1 ∧
    (tickFx e tNow s).enqueuedBytes = e.encodeBytes ∧
    (tickState e tNow s).queueOut = s.queueOut + e.encodeBytes := by
  unfold tickState tickFx
  rw [mainLoop_tx_eq e tNow s hInp hOut hTx]
  exact ⟨rfl, rfl, rfl, rfl, rfl, rfl⟩

/-- C2 witness. -/
theorem tx_tick_pauses_devices_enqueues_one_witness :
    (tickState ⟨true, 512, 4, 2, true, 0, 100⟩ 0
      ⟨3, 2, false, false, 0, 7, 0, Option.none⟩).pausedOut = true ∧
    (tickState ⟨true, 512, 4, 2, true, 0, 100⟩ 0
      ⟨3, 2, false, false, 0, 7, 0, Option.none⟩).pausedInp = true ∧
    (tickFx ⟨true, 512, 4, 2, true, 0, 100⟩ 0
      ⟨3, 2, false, false, 0, 7, 0, Option.none⟩).encodeCalls = 1 ∧
    (tickFx ⟨true, 512, 4, 2, true, 0, 100⟩ 0
      ⟨3, 2, false, false, 0, 7, 0, Option.none⟩).enqueueCalls = 1 ∧
    (tickFx ⟨true, 512, 4, 2, true, 0, 100⟩ 0
      ⟨3, 2, false, false, 0, 7, 0, Option.none⟩).enqueuedBytes = 100 ∧
    (tickState ⟨true, 512, 4, 2, true, 0, 100⟩ 0
      ⟨3, 2, false, false, 0, 7, 0, Option.none⟩).queueOut = 7 + 100 :=
  tx_tick_pauses_devices_enqueues_one ⟨true, 512, 4, 2, true, 0, 100⟩ 0
    ⟨3, 2, false, false, 0, 7, 0, Option.none⟩ (by decide) (by decide) rfl

/-- C3 counterexample: a listening tick leaves the playback device
unpaused (the code resumes it to drain residual TX audio), not paused as
the claim states. -/
theorem listening_tick_playback_unpaused_cx :
    (tickState ⟨false, 512, 4, 2, true, 0, 100⟩ 700
      ⟨4, 6, true, true, 1024, 0, 0, Option.none⟩).pausedOut = false := by
  rfl

/-- C3 (amended): for every tick with both devices open in which the
Session reports no outbound data pending, the tick resumes (unpauses) the
playback device, and resumes the capture device exactly when the playback
hardware queue holds fewer bytes than one output frame (otherwise the
capture device's paused state is left unchanged). -/
theorem listening_tick_resumes_playback_capture_gated (e : Engine)
    (tNow : Nat) (s : LoopState)
    (hInp : s.devIdInp ≠ 0) (hOut : s.devIdOut ≠ 0)
    (hTx : e.txHasData = false) :
    (tickState e tNow s).pausedOut = false ∧
    (s.queueOut < e.samplesPerFrame * e.sampleSizeOut →
      (tickState e tNow s).pausedInp = false) ∧
    (e.samplesPerFrame * e.sampleSizeOut ≤ s.queueOut →
      (tickState e tNow s).pausedInp = s.pausedInp) := by
  unfold tickState
  refine ⟨?_, ?_, ?_⟩
  · by_cases hA : s.queueOut < e.samplesPerFrame * e.sampleSizeOut
    · by_cases hB : 500 < tNow - s.tLastNoData ∧
          e.samplesPerFrame * e.sampleSizeInp ≤ s.queueInp
      · by_cases hC : 32 * (e.samplesPerFrame * e.sampleSizeInp) < s.queueInp
        · rw [mainLoop_decode_overflow_eq e tNow s hInp hOut hTx hA hB.1 hB.2 hC]
        · rw [mainLoop_decode_eq e tNow s hInp hOut hTx hA hB.1 hB.2 hC]
      · rw [mainLoop_idle_eq e tNow s hInp hOut hTx hA hB]
    · rw [mainLoop_drain_eq e tNow s hInp hOut hTx (Nat.not_lt.mp hA)]
  · intro hA
    by_cases hB : 500 < tNow - s.tLastNoData ∧
        e.samplesPerFrame * e.sampleSizeInp ≤ s.queueInp
    · by_cases hC : 32 * (e.samplesPerFrame * e.sampleSizeInp) < s.queueInp
      · rw [mainLoop_decode_overflow_eq e tNow s hInp hOut hTx hA hB.1 hB.2 hC]
      · rw [mainLoop_decode_eq e tNow s hInp hOut hTx hA hB.1 hB.2 hC]
    · rw [mainLoop_idle_eq e tNow s hInp hOut hTx hA hB]
  · intro hQ
    rw [mainLoop_drain_eq e tNow s hInp hOut hTx hQ]

/-- C3 witness. -/
theorem listening_tick_resumes_playback_capture_gated_witness :
    ((tickState ⟨false, 512, 4, 2, true, 0, 100⟩ 50
        ⟨3, 2, true, true, 0, 0, 0, Option.none⟩).pausedOut = false ∧
      ((0 : Nat) < 512 * 2 →
        (tickState ⟨false, 512, 4, 2, true, 0, 100⟩ 50
          ⟨3, 2, true, true, 0, 0, 0, Option.none⟩).pausedInp = false) ∧
      ((512 * 2 : Nat) ≤ 0 →
        (tickState ⟨false, 512, 4, 2, true, 0, 100⟩ 50
          ⟨3, 2, true, true, 0, 0, 0, Option.none⟩).pausedInp = true)) :=
  listening_tick_resumes_playback_capture_gated
    ⟨false, 512, 4, 2, true, 0, 100⟩ 50
    ⟨3, 2, true, true, 0, 0, 0, Option.none⟩ (by decide) (by decide) rfl

/-- C4 counterexample: a tick in which more than 500 ms have elapsed since
`tLastNoData` and the capture queue holds two full frames, yet decode is
not invoked and nothing is dequeued, because outbound data is pending (the
tick transmits instead).  This refutes the claim's converse direction
"when both conditions hold, exactly one frame's worth of bytes is dequeued
... and passed to decode" read over every tick. -/
theorem decode_skipped_despite_conditions_cx :
    500 < 1000 - 0 ∧ (512 * 4 : Nat) ≤ 4096 ∧
    (tickFx ⟨true, 512, 4, 2, true, 0, 100⟩ 1000
      ⟨3, 2, false, false, 4096, 0, 0, Option.none⟩).decodeCalls = 0 ∧
    (tickFx ⟨true, 512, 4, 2, true, 0, 100⟩ 1000
      ⟨3, 2, false, false, 4096, 0, 0, Option.none⟩).dequeuedBytes = 0 := by
  refine ⟨by decide, by decide, rfl, rfl⟩

/-- C4 (amended): decode is invoked only when more than 500 ms have
elapsed since the stored `tLastNoData` timestamp and the capture hardware
queue holds at least one frame's worth of input bytes; and whenever a tick
actually reaches the capture logic (no outbound data, playback queue below
one output frame) with both conditions holding, exactly one frame's worth
of bytes is dequeued from the capture queue and passed to decode. -/
theorem decode_gating_and_one_frame (e : Engine) (tNow : Nat)
    (s : LoopState) :
    ((tickFx e tNow s).decodeCalls ≠ 0 →
      500 < tNow - s.tLastNoData ∧
        e.samplesPerFrame * e.sampleSizeInp ≤
          sdlQueuedSize s.devIdInp s.queueInp) ∧
    (s.devIdInp ≠ 0 → s.devIdOut ≠ 0 → e.txHasData = false →
      s.queueOut < e.samplesPerFrame * e.sampleSizeOut →
      500 < tNow - s.tLastNoData →
      e.samplesPerFrame * e.sampleSizeInp ≤ s.queueInp →
      (s.dataInpSize = Option.none ∨
        s.dataInpSize = some (e.samplesPerFrame * e.sampleSizeInp)) →
      (tickFx e tNow s).decodeCalls = 1 ∧
      (tickFx e tNow s).dequeuedBytes = e.samplesPerFrame * e.sampleSizeInp ∧
      (tickFx e tNow s).decodeBytes = e.samplesPerFrame * e.sampleSizeInp) := by
  constructor
  · unfold tickFx GGWave_mainLoop
    dsimp only
    split
    · intro h
      exact absurd rfl h
    · split
      · split
        · split
          · split
            · intro _
              assumption
            · intro _
              assumption
          · intro h
            exact absurd rfl h
        · intro h
          exact absurd rfl h
      · intro h
        exact absurd rfl h
  · intro hInp hOut hTx hA hDeb hHave hSz
    by_cases hOv : 32 * (e.samplesPerFrame * e.sampleSizeInp) < s.queueInp
    · unfold tickFx
      rw [mainLoop_decode_overflow_eq e tNow s hInp hOut hTx hA hDeb hHave hOv]
      refine ⟨rfl, rfl, ?_⟩
      rcases hSz with h | h <;> rw [h] <;> rfl
    · unfold tickFx
      rw [mainLoop_decode_eq e tNow s hInp hOut hTx hA hDeb hHave hOv]
      refine ⟨rfl, rfl, ?_⟩
      rcases hSz with h | h <;> rw [h] <;> rfl

/-- C4 witness. -/
theorem decode_gating_and_one_frame_witness :
    (tickFx ⟨false, 512, 4, 2, true, 0, 100⟩ 600
      ⟨3, 2, true, true, 4096, 0, 0, Option.none⟩).decodeCalls = 1 ∧
    (tickFx ⟨false, 512, 4, 2, true, 0, 100⟩ 600
      ⟨3, 2, true, true, 4096, 0, 0, Option.none⟩).dequeuedBytes = 512 * 4 ∧
    (tickFx ⟨false, 512, 4, 2, true, 0, 100⟩ 600
      ⟨3, 2, true, true, 4096, 0, 0, Option.none⟩).decodeBytes = 512 * 4 :=
  (decode_gating_and_one_frame ⟨false, 512, 4, 2, true, 0, 100⟩ 600
    ⟨3, 2, true, true, 4096, 0, 0, Option.none⟩).2
    (by decide) (by decide) rfl (by decide) (by decide) (by decide)
    (Or.inl rfl)

/-- C5: for every tick that dequeues and decodes a frame, if immediately
after the dequeue the capture queue still holds more than 32 times one
frame's worth of input bytes, then the queue is cleared (length 0 at the
end of the tick) and the slow-processing warning is surfaced.  (The code
tests the pre-dequeue depth against 32 frames, a strictly weaker guard, so
it clears in every case the claim covers.) -/
theorem overflow_clears_capture_queue (e : Engine) (tNow : Nat)
    (s : LoopState)
    (hInp : s.devIdInp ≠ 0) (hOut : s.devIdOut ≠ 0)
    (hTx : e.txHasData = false)
    (hA : s.queueOut < e.samplesPerFrame * e.sampleSizeOut)
    (hDeb : 500 < tNow - s.tLastNoData)
    (hHave : e.samplesPerFrame * e.sampleSizeInp ≤ s.queueInp)
    (hOv : 32 * (e.samplesPerFrame * e.sampleSizeInp) <
      s.queueInp - e.samplesPerFrame * e.sampleSizeInp) :
    (tickState e tNow s).queueInp = 0 ∧
    (tickFx e tNow s).warnSlow = true := by
  have hOv' : 32 * (e.samplesPerFrame * e.sampleSizeInp) < s.queueInp :=
    lt_of_lt_of_le hOv (Nat.sub_le _ _)
  unfold tickState tickFx
  rw [mainLoop_decode_overflow_eq e tNow s hInp hOut hTx hA hDeb hHave hOv']
  exact ⟨rfl, rfl⟩

/-- C5 witness. -/
theorem overflow_clears_capture_queue_witness :
    32 * (512 * 4 : Nat) < 100000 - 512 * 4 ∧
    ((tickState ⟨false, 512, 4, 2, true, 0, 100⟩ 1000
        ⟨3, 2, true, true, 100000, 0, 0, Option.none⟩).queueInp = 0 ∧
      (tickFx ⟨false, 512, 4, 2, true, 0, 100⟩ 1000
        ⟨3, 2, true, true, 100000, 0, 0, Option.none⟩).warnSlow = true) :=
  ⟨by decide,
    overflow_clears_capture_queue ⟨false, 512, 4, 2, true, 0, 100⟩ 1000
      ⟨3, 2, true, true, 100000, 0, 0, Option.none⟩
      (by decide) (by decide) rfl (by decide) (by decide) (by decide)
      (by decide)⟩

/-- C9: for every listening tick that reaches the capture logic (playback
queue below one output frame's bytes), if the 500 ms debounce window has
not elapsed or the capture queue holds fewer than one frame's worth of
input bytes, the capture queue is cleared outright in that tick and decode
is not invoked, so no buffered capture bytes survive into the next tick. -/
theorem idle_listening_clears_capture_queue (e : Engine) (tNow : Nat)
    (s : LoopState)
    (hInp : s.devIdInp ≠ 0) (hOut : s.devIdOut ≠ 0)
    (hTx : e.txHasData = false)
    (hA : s.queueOut < e.samplesPerFrame * e.sampleSizeOut)
    (hIdle : ¬(500 < tNow - s.tLastNoData ∧
      e.samplesPerFrame * e.sampleSizeInp ≤ s.queueInp)) :
    (tickState e tNow s).queueInp = 0 ∧
    (tickFx e tNow s).decodeCalls = 0 := by
  unfold tickState tickFx
  rw [mainLoop_idle_eq e tNow s hInp hOut hTx hA hIdle]
  exact ⟨rfl, rfl⟩

/-- C9 witness. -/
theorem idle_listening_clears_capture_queue_witness :
    ¬(500 < 600 - 0 ∧ (512 * 4 : Nat) ≤ 1000) ∧
    ((tickState ⟨false, 512, 4, 2, true, 0, 100⟩ 600
        ⟨3, 2, true, true, 1000, 0, 0, Option.none⟩).queueInp = 0 ∧
      (tickFx ⟨false, 512, 4, 2, true, 0, 100⟩ 600
        ⟨3, 2, true, true, 1000, 0, 0, Option.none⟩).decodeCalls = 0) :=
  ⟨by decide,
    idle_listening_clears_capture_queue ⟨false, 512, 4, 2, true, 0, 100⟩ 600
      ⟨3, 2, true, true, 1000, 0, 0, Option.none⟩
      (by decide) (by decide) rfl (by decide) (by decide)⟩

/-- The capture-and-rebuild tail of `GGWave_init` always returns true and
never writes the playback device id. -/
theorem initCaptureAndRebuild_ret_out (hw : Hw) (payloadLength : Int)
    (useDSS : Bool) (reinit : Bool) (s : InitState) (fx : InitEffects) :
    (GGWave_initCaptureAndRebuild hw payloadLength useDSS reinit s fx).1 =
      true ∧
    (GGWave_initCaptureAndRebuild hw payloadLength useDSS reinit
        s fx).2.1.devIdOut = s.devIdOut := by
  unfold GGWave_initCaptureAndRebuild
  by_cases hI : s.devIdInp = 0 <;> by_cases hO : hw.inpOpenId = 0 <;>
    by_cases hR : reinit = true <;>
    simp [hI, hO, hR]

/-- C6 counterexample: when the playback open call fails (`outOpenId = 0`)
but the capture open succeeds, `GGWave_init` does not return boolean
failure: it falls through to the capture section and returns true, with
the playback handle left unopened.  This refutes the claim's "a device
open call fails → the call returns boolean failure". -/
theorem init_open_failure_returns_true_cx :
    (GGWave_init ⟨true, 0, SDLSpec.zero, 3, ⟨48000, AUDIO_F32SYS, 1, 1024⟩⟩
      16 0 true ⟨0, 0, SDLSpec.zero, SDLSpec.zero, Option.none⟩).1 = true ∧
    (GGWave_init ⟨true, 0, SDLSpec.zero, 3, ⟨48000, AUDIO_F32SYS, 1, 1024⟩⟩
      16 0 true
      ⟨0, 0, SDLSpec.zero, SDLSpec.zero, Option.none⟩).2.2.outOpenCalls =
      1 := by
  exact ⟨rfl, rfl⟩

/-- C6 (amended): if the requested playback parameters mismatch the
obtained ones (format, channel count, or frame size), the call returns
boolean failure and the partially-opened playback device is released, and
the return happens before any capture device operation, so the capture
device is untouched; if a device open call fails, however, that side's
handle merely remains unopened and the call continues (it does not return
failure). -/
theorem init_mismatch_fails_open_failure_continues (hw : Hw)
    (payloadLength sro : Int) (useDSS : Bool) (s : InitState)
    (hOut : s.devIdOut = 0) (hSdl : hw.sdlInitOk = true) :
    (hw.outOpenId ≠ 0 →
      (hw.outObtained.format ≠ AUDIO_S16SYS ∨ hw.outObtained.channels ≠ 1 ∨
        hw.outObtained.samples ≠ 16 * 1024) →
      (GGWave_init hw payloadLength sro useDSS s).1 = false ∧
      (GGWave_init hw payloadLength sro useDSS s).2.1.devIdOut = 0 ∧
      (GGWave_init hw payloadLength sro useDSS s).2.2.closeAudioCalls = 1 ∧
      (GGWave_init hw payloadLength sro useDSS s).2.2.inpOpenCalls = 0 ∧
      (GGWave_init hw payloadLength sro useDSS s).2.1.devIdInp =
        s.devIdInp ∧
      (GGWave_init hw payloadLength sro useDSS s).2.1.obtainedSpecInp =
        s.obtainedSpecInp ∧
      (GGWave_init hw payloadLength sro useDSS s).2.1.gg = s.gg) ∧
    (hw.outOpenId = 0 →
      (GGWave_init hw payloadLength sro useDSS s).1 = true ∧
      (GGWave_init hw payloadLength sro useDSS s).2.1.devIdOut = 0) := by
  constructor
  · intro hOpen hMis
    unfold GGWave_init
    rw [if_neg (by simp [hOut])]
    rw [if_neg (by simp [hSdl])]
    rw [if_pos hOut]
    dsimp only
    rw [if_neg hOpen, if_pos hMis]
    exact ⟨rfl, rfl, rfl, rfl, rfl, rfl, rfl⟩
  · intro hOpen
    unfold GGWave_init
    rw [if_neg (by simp [hOut])]
    rw [if_neg (by simp [hSdl])]
    rw [if_pos hOut]
    dsimp only
    rw [if_pos hOpen]
    refine ⟨(initCaptureAndRebuild_ret_out _ _ _ _ _ _).1, ?_⟩
    rw [(initCaptureAndRebuild_ret_out _ _ _ _ _ _).2]
    exact hOpen

/-- C6 witness. -/
theorem init_mismatch_fails_open_failure_continues_witness :
    (GGWave_init ⟨true, 2, ⟨48000, AUDIO_S16SYS, 1, 8192⟩, 3,
        ⟨48000, AUDIO_F32SYS, 1, 1024⟩⟩ 16 0 true
      ⟨0, 0, SDLSpec.zero, SDLSpec.zero, Option.none⟩).1 = false ∧
    (GGWave_init ⟨true, 2, ⟨48000, AUDIO_S16SYS, 1, 8192⟩, 3,
        ⟨48000, AUDIO_F32SYS, 1, 1024⟩⟩ 16 0 true
      ⟨0, 0, SDLSpec.zero, SDLSpec.zero, Option.none⟩).2.1.devIdOut = 0 ∧
    (GGWave_init ⟨true, 2, ⟨48000, AUDIO_S16SYS, 1, 8192⟩, 3,
        ⟨48000, AUDIO_F32SYS, 1, 1024⟩⟩ 16 0 true
      ⟨0, 0, SDLSpec.zero, SDLSpec.zero,
        Option.none⟩).2.2.closeAudioCalls = 1 ∧
    (GGWave_init ⟨true, 2, ⟨48000, AUDIO_S16SYS, 1, 8192⟩, 3,
        ⟨48000, AUDIO_F32SYS, 1, 1024⟩⟩ 16 0 true
      ⟨0, 0, SDLSpec.zero, SDLSpec.zero,
        Option.none⟩).2.2.inpOpenCalls = 0 ∧
    (GGWave_init ⟨true, 2, ⟨48000, AUDIO_S16SYS, 1, 8192⟩, 3,
        ⟨48000, AUDIO_F32SYS, 1, 1024⟩⟩ 16 0 true
      ⟨0, 0, SDLSpec.zero, SDLSpec.zero, Option.none⟩).2.1.devIdInp = 0 ∧
    (GGWave_init ⟨true, 2, ⟨48000, AUDIO_S16SYS, 1, 8192⟩, 3,
        ⟨48000, AUDIO_F32SYS, 1, 1024⟩⟩ 16 0 true
      ⟨0, 0, SDLSpec.zero, SDLSpec.zero,
        Option.none⟩).2.1.obtainedSpecInp = SDLSpec.zero ∧
    (GGWave_init ⟨true, 2, ⟨48000, AUDIO_S16SYS, 1, 8192⟩, 3,
        ⟨48000, AUDIO_F32SYS, 1, 1024⟩⟩ 16 0 true
      ⟨0, 0, SDLSpec.zero, SDLSpec.zero, Option.none⟩).2.1.gg =
      Option.none :=
  (init_mismatch_fails_open_failure_continues
    ⟨true, 2, ⟨48000, AUDIO_S16SYS, 1, 8192⟩, 3,
      ⟨48000, AUDIO_F32SYS, 1, 1024⟩⟩ 16 0 true
    ⟨0, 0, SDLSpec.zero, SDLSpec.zero, Option.none⟩ rfl rfl).1
    (by decide) (by decide)

/-- C7: the hardware-format-to-engine-format mapping is total and
deterministic: each of the six recognized SDL formats maps to exactly one
engine format, signed 32-bit and float32 both map to the engine's float32,
and every other format code maps to the undefined sentinel. -/
theorem format_mapping_total :
    (sdlFormatToGGWave AUDIO_U8 = SampleFormat.u8 ∧
      sdlFormatToGGWave AUDIO_S8 = SampleFormat.i8 ∧
      sdlFormatToGGWave AUDIO_U16SYS = SampleFormat.u16 ∧
      sdlFormatToGGWave AUDIO_S16SYS = SampleFormat.i16 ∧
      sdlFormatToGGWave AUDIO_S32SYS = SampleFormat.f32 ∧
      sdlFormatToGGWave AUDIO_F32SYS = SampleFormat.f32) ∧
    ∀ f : Nat, f ≠ AUDIO_U8 → f ≠ AUDIO_S8 → f ≠ AUDIO_U16SYS →
      f ≠ AUDIO_S16SYS → f ≠ AUDIO_S32SYS → f ≠ AUDIO_F32SYS →
      sdlFormatToGGWave f = SampleFormat.undefined := by
  refine ⟨⟨by decide, by decide, by decide, by decide, by decide,
    by decide⟩, ?_⟩
  intro f h1 h2 h3 h4 h5 h6
  unfold sdlFormatToGGWave
  rw [if_neg h1, if_neg h2, if_neg h3, if_neg h4, if_neg h5, if_neg h6]

/-- C7 witness. -/
theorem format_mapping_total_witness :
    sdlFormatToGGWave 0 = SampleFormat.undefined :=
  format_mapping_total.2 0 (by decide) (by decide) (by decide) (by decide)
    (by decide) (by decide)

/-- C8: calling `GGWave_init` when both device handles are already open
performs no SDL-init, open or close operations and leaves every global
(the handles, the obtained specs and the engine instance) unchanged. -/
theorem init_noop_when_both_open (hw : Hw) (payloadLength sro : Int)
    (useDSS : Bool) (s : InitState)
    (hInp : s.devIdInp ≠ 0) (hOut : s.devIdOut ≠ 0) :
    GGWave_init hw payloadLength sro useDSS s =
      (false, s, InitEffects.none) := by
  unfold GGWave_init
  rw [if_pos ⟨hInp, hOut⟩]

/-- C8 witness. -/
theorem init_noop_when_both_open_witness :
    GGWave_init ⟨true, 2, ⟨48000, AUDIO_S16SYS, 1, 16 * 1024⟩, 3,
        ⟨48000, AUDIO_F32SYS, 1, 1024⟩⟩ 16 0 true
      ⟨3, 2, ⟨48000, AUDIO_F32SYS, 1, 1024⟩,
        ⟨48000, AUDIO_S16SYS, 1, 16 * 1024⟩, Option.none⟩ =
      (false,
        ⟨3, 2, ⟨48000, AUDIO_F32SYS, 1, 1024⟩,
          ⟨48000, AUDIO_S16SYS, 1, 16 * 1024⟩, Option.none⟩,
        InitEffects.none) :=
  init_noop_when_both_open
    ⟨true, 2, ⟨48000, AUDIO_S16SYS, 1, 16 * 1024⟩, 3,
      ⟨48000, AUDIO_F32SYS, 1, 1024⟩⟩ 16 0 true
    ⟨3, 2, ⟨48000, AUDIO_F32SYS, 1, 1024⟩,
      ⟨48000, AUDIO_S16SYS, 1, 16 * 1024⟩, Option.none⟩
    (by decide) (by decide)

end ArduinoRxWeb
